import Mathlib

/-!
Verification of `filter_dysarthric_audio.py`, the audio filtering and export
pipeline of this repository.

The embedding is shallow: Python floats are modelled as rationals, the
filesystem as an explicit state record threaded through the stateful
operations, fallible operations return `Except`, and the log is an explicit
list of events.  Durations, the range check, rounding, catalog construction,
identifier derivation, the selection loop, the export sort and the logged
statistics are translated directly from the source.
-/

namespace FilterDysarthric

/-- A log line, modelling the `logging` calls of the script. -/
inductive LogEvent where
  | error (msg : String)
  | warning (msg : String)
  | info (msg : String)
deriving DecidableEq, Repr

/-- Immutable record produced per retained audio file
(`AudioMetadata` dataclass).  Paths are modelled as strings. -/
structure AudioMetadata where
  file_id : String
  filename : String
  duration_sec : ℚ
  transcription : String
  text_length : ℕ
  original_path : String
  new_path : String
deriving DecidableEq, Repr

/-- Immutable configuration (`FilterConfig` dataclass) with the source
defaults 10.0 / 15.0 / 12.0 seconds. -/
structure FilterConfig where
  audio_dir : String
  excel_file : String
  output_dir : String
  min_duration : ℚ := 10
  max_duration : ℚ := 15
  target_duration : ℚ := 12
deriving DecidableEq, Repr

/-- Round-half-to-even on rationals, the rounding mode of Python `round`. -/
def roundHalfEven (q : ℚ) : ℤ :=
  if q - ⌊q⌋ < 1/2 then ⌊q⌋
  else if 1/2 < q - ⌊q⌋ then ⌊q⌋ + 1
  else if ⌊q⌋ % 2 = 0 then ⌊q⌋ else ⌊q⌋ + 1

/-- Python `round(x, 2)`: round to the nearest hundredth, ties to even. -/
def round2 (q : ℚ) : ℚ := (roundHalfEven (q * 100) : ℚ) / 100

/-- Outcome of `wave.open` plus header parse on one file: either a parsed
PCM header (frame count and frame rate as read from the `fmt ` chunk; the
stdlib parser validates sample width and channel count but not the frame
rate, so a parsed rate of 0 is possible) or an open/parse error. -/
inductive WavOpenResult where
  | parsed (frames : ℕ) (rate : ℕ)
  | openError (msg : String)
deriving DecidableEq, Repr

/-- `WaveAudioReader.get_duration`: inside the `try`, read `getnframes` and
`getframerate` and return `frames / float(rate)`; any exception — an open or
parse error, or the `ZeroDivisionError` raised by the division when the
parsed rate is 0 — is caught by the blanket handler, logged, and converted
to the failure sentinel `none`.  The function is total: no exception
escapes. -/
def WaveAudioReader.get_duration (name : String) (r : WavOpenResult) :
    Option ℚ × List LogEvent :=
  match r with
  | WavOpenResult.openError msg =>
      (none, [LogEvent.error ("Failed to read audio " ++ name ++ ": " ++ msg)])
  | WavOpenResult.parsed frames rate =>
      if rate = 0 then
        (none, [LogEvent.error
          ("Failed to read audio " ++ name ++ ": float division by zero")])
      else (some ((frames : ℚ) / (rate : ℚ)), [])

/-- One spreadsheet row as read by `pd.read_excel`: the numeric index cell
and the transcription text cell.  Excel numeric cells arrive as floats,
hence the rational index. -/
structure SheetRow where
  chislo : ℚ
  speech : String
deriving DecidableEq, Repr

/-- Python `int(...)` on a numeric value: truncation toward zero. -/
def pyIntTrunc (q : ℚ) : ℤ := if q < 0 then -⌊-q⌋ else ⌊q⌋

/-- `TranscriptionLoader.load`: one catalog entry per row, keyed by the
numeric index coerced to integer and then to string.  Association-list
model of the dict comprehension; later rows overwrite earlier ones on a
duplicate key, which `dictGet` honours by scanning from the end. -/
def TranscriptionLoader.load (rows : List SheetRow) : List (String × String) :=
  rows.map (fun r => (toString (pyIntTrunc r.chislo), r.speech))

/-- Python `dict.get k`: last binding of `k` wins, `none` when absent. -/
def dictGet (d : List (String × String)) (k : String) : Option String :=
  (d.reverse.find? (fun p => p.1 == k)).map Prod.snd

/-- `pathlib.Path.stem`: the filename without its last suffix.  A suffix
exists only when the last dot is neither the first nor the last character
of the name. -/
def stem (name : String) : String :=
  let cs := name.toList
  match cs.reverse.findIdx? (fun c => c = '.') with
  | none => name
  | some ri =>
      let i := cs.length - 1 - ri
      if 0 < i ∧ i < cs.length - 1 then String.mk (cs.take i) else name

/-- One audio file of the input directory: its name within `audio_dir` and
what `wave.open` sees when reading it. -/
structure AudioFile where
  name : String
  wav : WavOpenResult
deriving DecidableEq, Repr

/-- Filesystem state threaded through the pipeline: which paths exist,
which directories the run created, which copies it performed, and which
manifests it wrote (path and rows). -/
structure FS where
  existing : List String
  dirs_created : List String
  copies : List (String × String)
  manifests : List (String × List AudioMetadata)
deriving DecidableEq, Repr

/-- `AudioFilter._is_within_duration_range`:
`min_duration <= duration <= max_duration` (inclusive on both ends). -/
def AudioFilter.is_within_duration_range (cfg : FilterConfig) (d : ℚ) : Bool :=
  decide (cfg.min_duration ≤ d ∧ d ≤ cfg.max_duration)

/-- `AudioFilter._process_audio_file`: derive the identifier from the
filename stem, look the transcription up (empty string when absent), warn
when the resulting transcription is empty, copy the file into the `audio`
subdirectory, and build the metadata record with the duration rounded to
two decimals.  Returns the record, the warnings emitted, and the copy
performed (source path, destination path). -/
def AudioFilter.process_audio_file (cfg : FilterConfig) (f : AudioFile)
    (duration : ℚ) (transcriptions : List (String × String)) :
    AudioMetadata × List LogEvent × (String × String) :=
  let file_id := stem f.name
  let transcription := (dictGet transcriptions file_id).getD ""
  let warn : List LogEvent :=
    if transcription = "" then
      [LogEvent.warning ("Missing transcription for " ++ f.name)]
    else []
  let src := cfg.audio_dir ++ "/" ++ f.name
  let dest := cfg.output_dir ++ "/audio/" ++ f.name
  (⟨file_id, f.name, round2 duration, transcription,
    transcription.length, src, dest⟩, warn, (src, dest))

/-- Accumulated result of the selection loop: retained records in input
order, copies performed, and log lines emitted. -/
structure FilterOutput where
  filtered : List AudioMetadata
  copies : List (String × String)
  log : List LogEvent
deriving DecidableEq, Repr

/-- `AudioFilter._filter_and_copy`: for each file in enumeration order,
probe the duration through the injected reader; on a failed probe skip
(keeping the log lines the reader emitted); on an out-of-range duration
skip silently; otherwise process the file and append its record.  The
trailing count log line of the source is not modelled (no claim mentions
it). -/
def AudioFilter.filter_and_copy (cfg : FilterConfig)
    (reader : AudioFile → Option ℚ × List LogEvent)
    (transcriptions : List (String × String)) :
    List AudioFile → FilterOutput
  | [] => { filtered := [], copies := [], log := [] }
  | f :: fs =>
      let probed := reader f
      let rest := AudioFilter.filter_and_copy cfg reader transcriptions fs
      match probed.1 with
      | none => { rest with log := probed.2 ++ rest.log }
      | some d =>
          if AudioFilter.is_within_duration_range cfg d then
            let p := AudioFilter.process_audio_file cfg f d transcriptions
            { filtered := p.1 :: rest.filtered,
              copies := p.2.2 :: rest.copies,
              log := probed.2 ++ p.2.1 ++ rest.log }
          else { rest with log := probed.2 ++ rest.log }

/-- `AudioFilter._validate_paths`: the two existence preconditions, checked
in source order, each raising `FileNotFoundError` with the source message. -/
def AudioFilter.validate_paths (cfg : FilterConfig) (fs : FS) :
    Except String Unit :=
  if fs.existing.contains cfg.audio_dir = false then
    Except.error ("Audio directory not found: " ++ cfg.audio_dir)
  else if fs.existing.contains cfg.excel_file = false then
    Except.error ("Excel file not found: " ++ cfg.excel_file)
  else Except.ok ()

/-- `AudioFilter._setup_output_directories`: create the output directory
and its `audio` subdirectory (idempotent `mkdir`, modelled as appends). -/
def AudioFilter.setup_output_directories (cfg : FilterConfig) (fs : FS) : FS :=
  { fs with dirs_created :=
      fs.dirs_created ++ [cfg.output_dir, cfg.output_dir ++ "/audio"] }

/-- `AudioFilter.execute`: validate paths, create output directories, load
the catalog, enumerate and filter the files.  On a validation failure the
error propagates before any other step runs, so the filesystem state is
returned untouched. -/
def AudioFilter.execute (cfg : FilterConfig)
    (reader : AudioFile → Option ℚ × List LogEvent)
    (rows : List SheetRow) (files : List AudioFile) (fs : FS) :
    FS × Except String FilterOutput :=
  match AudioFilter.validate_paths cfg fs with
  | Except.error e => (fs, Except.error e)
  | Except.ok _ =>
      let fs1 := AudioFilter.setup_output_directories cfg fs
      let transcriptions := TranscriptionLoader.load rows
      let out := AudioFilter.filter_and_copy cfg reader transcriptions files
      ({ fs1 with copies := fs1.copies ++ out.copies }, Except.ok out)

/-- The `distance_from_target` column: `abs(duration_sec - target)`. -/
def distance_from_target (target : ℚ) (m : AudioMetadata) : ℚ :=
  |m.duration_sec - target|

/-- Comparison by distance from the target duration. -/
def distLE (target : ℚ) (a b : AudioMetadata) : Prop :=
  distance_from_target target a ≤ distance_from_target target b

instance (target : ℚ) : DecidableRel (distLE target) := fun a b =>
  inferInstanceAs
    (Decidable (distance_from_target target a ≤ distance_from_target target b))

instance (target : ℚ) : IsTotal AudioMetadata (distLE target) :=
  ⟨fun a b => le_total (distance_from_target target a) (distance_from_target target b)⟩

instance (target : ℚ) : IsTrans AudioMetadata (distLE target) :=
  ⟨fun _ _ _ hab hbc => le_trans hab hbc⟩

/-- `DatasetExporter.export`.  `pd.DataFrame` built from a list of row
dicts has a column per dict key, so on an empty metadata list the frame has
no columns at all and the `duration_sec` column access performed while
computing the distance column raises `KeyError`, which propagates (modelled
as `Except.error`); no manifest is written in that case.  Otherwise the
rows are sorted by the distance column and written (distance dropped) to
`filtered_dataset.csv` in the output directory.  `sort_values` uses the
pandas default `kind=quicksort`, which the pandas documentation does not
guarantee to be stable; the model uses a comparison sort on the same key,
so properties depending only on sortedness of the output hold for both,
while the order of rows with equal distance is implementation-defined in
the source. -/
def DatasetExporter.export (output_dir : String) (target_duration : ℚ)
    (fs : FS) (metadata : List AudioMetadata) :
    FS × Except String (String × List AudioMetadata) :=
  match metadata with
  | [] => (fs, Except.error "KeyError: duration_sec")
  | _ :: _ =>
      let sorted := List.insertionSort (distLE target_duration) metadata
      let csv_path := output_dir ++ "/filtered_dataset.csv"
      ({ fs with manifests := fs.manifests ++ [(csv_path, sorted)] },
       Except.ok (csv_path, sorted))

/-- pandas `notna` on a column value: false only for `None`/`NaN`.  Every
transcription value reaching the exporter is a Python `str` (the selection
loop substitutes the empty string for a missing entry), so `notna` holds
for every row, the empty string included. -/
def notna_string (_s : String) : Bool := true

/-- The numbers logged by `DatasetExporter._log_statistics` that any claim
refers to: the record count, the `notna`-based transcription coverage
count, and the average text length — `df[text_length].mean()`, a mean over
all rows — which is logged only when the coverage count is positive.  The
min/max/mean/median duration lines are not modelled (no claim mentions
them). -/
structure ExportStats where
  total : ℕ
  with_transcription : ℕ
  avg_text_length : Option ℚ
deriving DecidableEq, Repr

/-- `DatasetExporter._log_statistics` (the claim-relevant fields). -/
def DatasetExporter.log_statistics (ms : List AudioMetadata) : ExportStats :=
  let wt := (ms.filter (fun m => notna_string m.transcription)).length
  { total := ms.length
    with_transcription := wt
    avg_text_length :=
      if 0 < wt then
        some ((ms.map (fun m => (m.text_length : ℚ))).sum / (ms.length : ℚ))
      else none }

/-- The concrete reader wired up in `main`: `WaveAudioReader` applied to
the file content. -/
def waveReader (f : AudioFile) : Option ℚ × List LogEvent :=
  WaveAudioReader.get_duration f.name f.wav

/-- `main`: run the filter, then the exporter, returning the manifest path.
An error from either stage propagates. -/
def pipeline_main (cfg : FilterConfig) (rows : List SheetRow)
    (files : List AudioFile) (fs : FS) : FS × Except String String :=
  match AudioFilter.execute cfg waveReader rows files fs with
  | (fs1, Except.error e) => (fs1, Except.error e)
  | (fs1, Except.ok out) =>
      match DatasetExporter.export cfg.output_dir cfg.target_duration fs1
          out.filtered with
      | (fs2, Except.error e) => (fs2, Except.error e)
      | (fs2, Except.ok (csv, _)) => (fs2, Except.ok csv)

/-- The `__main__` guard: exit code 0 on success, 1 on any uncaught
exception. -/
def run_exit_code (cfg : FilterConfig) (rows : List SheetRow)
    (files : List AudioFile) (fs : FS) : ℕ :=
  match (pipeline_main cfg rows files fs).2 with
  | Except.ok _ => 0
  | Except.error _ => 1

/-! ### Helper lemmas -/

/-- The selection loop retains exactly the files whose probe succeeds with
an in-range duration, as a `filterMap` over the input list (hence in
enumeration order). -/
theorem filtered_eq (cfg : FilterConfig)
    (reader : AudioFile → Option ℚ × List LogEvent)
    (ts : List (String × String)) (files : List AudioFile) :
    (AudioFilter.filter_and_copy cfg reader ts files).filtered =
      files.filterMap (fun f =>
        match (reader f).1 with
        | none => none
        | some d =>
            if AudioFilter.is_within_duration_range cfg d then
              some (AudioFilter.process_audio_file cfg f d ts).1
            else none) := by
  induction files with
  | nil => rfl
  | cons f fs ih =>
      simp only [AudioFilter.filter_and_copy, List.filterMap_cons]
      cases h : (reader f).1 with
      | none => simp [h, ih]
      | some d =>
          by_cases hr : AudioFilter.is_within_duration_range cfg d <;>
            simp [h, hr, ih]

/-- Every log line of the tail loop survives prepending one more file. -/
theorem log_subset_cons (cfg : FilterConfig)
    (reader : AudioFile → Option ℚ × List LogEvent)
    (ts : List (String × String)) (g : AudioFile) (gs : List AudioFile)
    (e : LogEvent)
    (he : e ∈ (AudioFilter.filter_and_copy cfg reader ts gs).log) :
    e ∈ (AudioFilter.filter_and_copy cfg reader ts (g :: gs)).log := by
  simp only [AudioFilter.filter_and_copy]
  cases hg : (reader g).1 with
  | none => simp [he]
  | some d =>
      by_cases hr : AudioFilter.is_within_duration_range cfg d <;> simp [hr, he]

/-- A warning emitted while processing a retained file appears in the log
of the whole loop. -/
theorem mem_log_of_process (cfg : FilterConfig)
    (reader : AudioFile → Option ℚ × List LogEvent)
    (ts : List (String × String)) (files : List AudioFile)
    (f : AudioFile) (d : ℚ) (e : LogEvent)
    (hf : f ∈ files) (hd : (reader f).1 = some d)
    (hr : AudioFilter.is_within_duration_range cfg d = true)
    (he : e ∈ (AudioFilter.process_audio_file cfg f d ts).2.1) :
    e ∈ (AudioFilter.filter_and_copy cfg reader ts files).log := by
  induction files with
  | nil => cases hf
  | cons g gs ih =>
      rcases List.mem_cons.mp hf with rfl | hmem
      · simp only [AudioFilter.filter_and_copy, hd, hr, if_true]
        simp [he]
      · exact log_subset_cons cfg reader ts g gs e (ih hmem)

/-- Inverting a successful export: the rows written are the input records
sorted by distance from the target. -/
theorem export_rows_eq {output_dir : String} {t : ℚ} {fs fs2 : FS}
    {ms rows : List AudioMetadata} {p : String}
    (h : DatasetExporter.export output_dir t fs ms =
      (fs2, Except.ok (p, rows))) :
    rows = List.insertionSort (distLE t) ms := by
  cases ms with
  | nil => simp [DatasetExporter.export] at h
  | cons a l =>
      simp only [DatasetExporter.export, Prod.mk.injEq, Except.ok.injEq] at h
      exact h.2.2.symm

/-- Every record of the loop output arises from a probed duration that
passed the inclusive range check, with the stored duration being the
rounded probe value. -/
theorem mem_filtered_duration {cfg : FilterConfig}
    {reader : AudioFile → Option ℚ × List LogEvent}
    {ts : List (String × String)} {files : List AudioFile}
    {m : AudioMetadata}
    (hm : m ∈ (AudioFilter.filter_and_copy cfg reader ts files).filtered) :
    ∃ d : ℚ, (cfg.min_duration ≤ d ∧ d ≤ cfg.max_duration) ∧
      m.duration_sec = round2 d := by
  rw [filtered_eq] at hm
  rw [List.mem_filterMap] at hm
  obtain ⟨f, _, heq⟩ := hm
  cases h : (reader f).1 with
  | none => simp [h] at heq
  | some d =>
      simp only [h] at heq
      by_cases hr : AudioFilter.is_within_duration_range cfg d
      · rw [if_pos hr] at heq
        refine ⟨d, ?_, ?_⟩
        · exact of_decide_eq_true hr
        · cases heq; rfl
      · rw [if_neg hr] at heq; cases heq

/-- `roundHalfEven` never goes below the floor. -/
theorem le_roundHalfEven (q : ℚ) : ⌊q⌋ ≤ roundHalfEven q := by
  unfold roundHalfEven; split_ifs <;> omega

/-- `roundHalfEven` never exceeds the floor plus one. -/
theorem roundHalfEven_le_floor_add_one (q : ℚ) : roundHalfEven q ≤ ⌊q⌋ + 1 := by
  unfold roundHalfEven; split_ifs <;> omega

/-- Integers are fixed by `roundHalfEven`. -/
theorem roundHalfEven_intCast (z : ℤ) : roundHalfEven (z : ℚ) = z := by
  unfold roundHalfEven
  rw [Int.floor_intCast, sub_self]
  norm_num

/-- `roundHalfEven` is monotone. -/
theorem roundHalfEven_mono {q r : ℚ} (h : q ≤ r) :
    roundHalfEven q ≤ roundHalfEven r := by
  rcases lt_or_le ⌊q⌋ ⌊r⌋ with hf | hf
  · have h1 := roundHalfEven_le_floor_add_one q
    have h2 := le_roundHalfEven r
    omega
  · have heq : ⌊q⌋ = ⌊r⌋ := le_antisymm (Int.floor_mono h) hf
    have hqr : q - (⌊r⌋ : ℚ) ≤ r - (⌊r⌋ : ℚ) := by linarith
    unfold roundHalfEven
    rw [heq]
    split_ifs <;> first | omega | linarith

/-- Rounding to hundredths is monotone. -/
theorem round2_mono {q r : ℚ} (h : q ≤ r) : round2 q ≤ round2 r := by
  unfold round2
  have h1 : roundHalfEven (q * 100) ≤ roundHalfEven (r * 100) :=
    roundHalfEven_mono (by linarith)
  have h2 : (roundHalfEven (q * 100) : ℚ) ≤ (roundHalfEven (r * 100) : ℚ) := by
    exact_mod_cast h1
  linarith

/-- Exact multiples of one hundredth are fixed by `round2`. -/
theorem round2_eq_self {q : ℚ} (z : ℤ) (hz : q * 100 = (z : ℚ)) :
    round2 q = q := by
  unfold round2
  rw [hz, roundHalfEven_intCast, ← hz]
  linarith

/-! ### Concrete fixtures used by witnesses and counterexamples -/

/-- A configuration with the source defaults 10 / 15 / 12. -/
def cfg0 : FilterConfig :=
  { audio_dir := "in", excel_file := "sheet.xlsx", output_dir := "out" }

/-- An empty filesystem state. -/
def fs0 : FS := ⟨[], [], [], []⟩

/-- A filesystem state where both configured inputs exist. -/
def fsBoth : FS := ⟨["in", "sheet.xlsx"], [], [], []⟩

/-- A filesystem state where the spreadsheet exists but the audio
directory does not. -/
def fsNoAudio : FS := ⟨["sheet.xlsx"], [], [], []⟩

/-- A record at exactly the target duration. -/
def m12 : AudioMetadata :=
  ⟨"a", "a.wav", 12, "x", 1, "in/a.wav", "out/audio/a.wav"⟩

/-- A record 2.5 seconds away from the target duration. -/
def m145 : AudioMetadata :=
  ⟨"b", "b.wav", 29/2, "y", 1, "in/b.wav", "out/audio/b.wav"⟩

/-- A 12-second file with no catalog entry. -/
def fx7 : AudioFile := ⟨"7.wav", WavOpenResult.parsed 12 1⟩

/-- The record the pipeline produces for `fx7` under `cfg0`. -/
def m7 : AudioMetadata := ⟨"7", "7.wav", 12, "", 0, "in/7.wav", "out/audio/7.wav"⟩

/-- A 5-second file, outside the default range. -/
def f5 : AudioFile := ⟨"1.wav", WavOpenResult.parsed 5 1⟩

/-! ### Claim theorems -/

/-- C1: For every configuration, duration probe, transcription catalog and
audio file list, the selection loop retains exactly the files whose probe
succeeds with a probed duration in the inclusive range
`[min_duration, max_duration]`, skipping files whose probe failed or whose
duration is out of range, and the returned metadata sequence preserves the
enumeration order of the input file list (it equals a `filterMap` over that
list). -/
theorem C1_selection_loop_retains_exactly_in_range (cfg : FilterConfig)
    (reader : AudioFile → Option ℚ × List LogEvent)
    (ts : List (String × String)) (files : List AudioFile) :
    (AudioFilter.filter_and_copy cfg reader ts files).filtered =
      files.filterMap (fun f =>
        match (reader f).1 with
        | none => none
        | some d =>
            if AudioFilter.is_within_duration_range cfg d then
              some (AudioFilter.process_audio_file cfg f d ts).1
            else none) :=
  filtered_eq cfg reader ts files

/-- C2: Whenever the exporter succeeds, the rows of the manifest it writes
are in non-decreasing order of the absolute distance of `duration_sec`
from `target_duration`. -/
theorem C2_manifest_sorted_by_distance (output_dir : String) (t : ℚ)
    (fs fs2 : FS) (ms rows : List AudioMetadata) (p : String)
    (h : DatasetExporter.export output_dir t fs ms =
      (fs2, Except.ok (p, rows))) :
    List.Sorted (distLE t) rows := by
  rw [export_rows_eq h]
  exact List.sorted_insertionSort (distLE t) ms

/-- Witness for C2, on the end-to-end scenario of the specification: the
two retained records with durations 12.0 (distance 0.0) and 14.5 (distance
2.5) are exported in that order, which is sorted. -/
theorem C2_witness : List.Sorted (distLE 12) [m12, m145] := by
  have hd : distLE 12 m12 m145 := by
    simp only [distLE, distance_from_target, m12, m145]
    norm_num
  have hsort : List.insertionSort (distLE 12) [m12, m145] = [m12, m145] := by
    simp [List.insertionSort, List.orderedInsert, hd]
  exact C2_manifest_sorted_by_distance "out" 12 fs0
    { fs0 with manifests := [("out/filtered_dataset.csv", [m12, m145])] }
    [m12, m145] [m12, m145] "out/filtered_dataset.csv"
    (by simp only [DatasetExporter.export, hsort, fs0]; rfl)

/-- C5 counterexample: a file that opens and parses as a linear-PCM
container but carries frame rate 0 (the stdlib parser does not validate
the rate) yields the failure sentinel, not `frames / rate` — the
`ZeroDivisionError` of the division is caught by the same blanket handler
as open and parse errors. -/
theorem C5_counterexample :
    (WaveAudioReader.get_duration "f.wav" (WavOpenResult.parsed 4 0)).1 =
      none ∧
    (WaveAudioReader.get_duration "f.wav" (WavOpenResult.parsed 4 0)).1 ≠
      some (((4 : ℕ) : ℚ) / ((0 : ℕ) : ℚ)) := by
  constructor <;> simp [WaveAudioReader.get_duration]

/-- C5 (amended): the duration probe returns `frames / rate` when the file
opens and parses as a linear-PCM container with a nonzero frame rate; on
any open or parse error — and likewise on a parsed frame rate of zero,
whose division raises `ZeroDivisionError` — it returns the failure
sentinel after logging an error with the filename, and (being a total
function into `Option`) never propagates an exception. -/
theorem C5_probe_returns_ratio_or_sentinel :
    (∀ (name : String) (frames rate : ℕ), rate ≠ 0 →
        WaveAudioReader.get_duration name (WavOpenResult.parsed frames rate) =
          (some ((frames : ℚ) / (rate : ℚ)), [])) ∧
    (∀ name msg : String,
        WaveAudioReader.get_duration name (WavOpenResult.openError msg) =
          (none, [LogEvent.error
            ("Failed to read audio " ++ name ++ ": " ++ msg)])) ∧
    (∀ (name : String) (frames : ℕ),
        WaveAudioReader.get_duration name (WavOpenResult.parsed frames 0) =
          (none, [LogEvent.error
            ("Failed to read audio " ++ name ++ ": float division by zero")])) := by
  refine ⟨?_, ?_, ?_⟩ <;> intros <;> simp [WaveAudioReader.get_duration, *]

/-- Witness for C5: a 44100-frame file at 44100 frames per second probes to
exactly one second. -/
theorem C5_witness :
    WaveAudioReader.get_duration "a.wav" (WavOpenResult.parsed 44100 44100) =
      (some (((44100 : ℕ) : ℚ) / ((44100 : ℕ) : ℚ)), []) :=
  C5_probe_returns_ratio_or_sentinel.1 "a.wav" 44100 44100 (by norm_num)

/-- C8: the transcription catalog maps each spreadsheet row to the entry
keyed by its numeric index coerced to integer and then to string; the file
name `42.wav` yields the identifier `42` (its stem), which matches the
catalog key built from a row with numeric index 42. -/
theorem C8_identifier_matches_catalog_key :
    (∀ (rows : List SheetRow) (r : SheetRow), r ∈ rows →
        (toString (pyIntTrunc r.chislo), r.speech) ∈
          TranscriptionLoader.load rows) ∧
    stem "42.wav" = "42" ∧
    (∀ t : String,
        dictGet (TranscriptionLoader.load [⟨(42 : ℚ), t⟩]) (stem "42.wav") =
          some t) := by
  have h42 : pyIntTrunc (42 : ℚ) = 42 := by
    unfold pyIntTrunc
    rw [if_neg (by norm_num)]
    norm_num
  have hkey : toString (pyIntTrunc (42 : ℚ)) = "42" := by rw [h42]; decide
  have hstem : stem "42.wav" = "42" := by decide
  refine ⟨?_, hstem, ?_⟩
  · intro rows r hr
    exact List.mem_map_of_mem _ hr
  · intro t
    simp [TranscriptionLoader.load, dictGet, hkey, hstem]

/-- Witness for C8: a concrete row with index 42 and text `"text"` lands
in the catalog under key `"42"`, and lookup by the stem of `42.wav` finds
it. -/
theorem C8_witness :
    (toString (pyIntTrunc ((42 : ℚ))), "text") ∈
      TranscriptionLoader.load [⟨(42 : ℚ), "text"⟩] ∧
    dictGet (TranscriptionLoader.load [⟨(42 : ℚ), "text"⟩]) (stem "42.wav") =
      some "text" :=
  ⟨C8_identifier_matches_catalog_key.1 [⟨(42 : ℚ), "text"⟩] ⟨(42 : ℚ), "text"⟩
      (by simp),
   C8_identifier_matches_catalog_key.2.2 "text"⟩

/-- C9: when the configured audio directory or the spreadsheet file does
not exist, `AudioFilter.execute` returns the corresponding fatal
`FileNotFoundError` before performing any work: the filesystem state is
returned unchanged (no directory created, no file copied; the catalog load
and the enumeration are never reached). -/
theorem C9_missing_inputs_abort_unchanged (cfg : FilterConfig)
    (reader : AudioFile → Option ℚ × List LogEvent)
    (rows : List SheetRow) (files : List AudioFile) (fs : FS)
    (h : fs.existing.contains cfg.audio_dir = false ∨
         fs.existing.contains cfg.excel_file = false) :
    (AudioFilter.execute cfg reader rows files fs).1 = fs ∧
    ((AudioFilter.execute cfg reader rows files fs).2 =
        Except.error ("Audio directory not found: " ++ cfg.audio_dir) ∨
     (AudioFilter.execute cfg reader rows files fs).2 =
        Except.error ("Excel file not found: " ++ cfg.excel_file)) := by
  cases ha : fs.existing.contains cfg.audio_dir with
  | false =>
      have ha2 : cfg.audio_dir ∉ fs.existing := by simpa using ha
      refine ⟨?_, Or.inl ?_⟩ <;>
        simp [AudioFilter.execute, AudioFilter.validate_paths, ha2]
  | true =>
      have hb : fs.existing.contains cfg.excel_file = false := by
        rcases h with h | h
        · rw [ha] at h; cases h
        · exact h
      have ha2 : cfg.audio_dir ∈ fs.existing := by simpa using ha
      have hb2 : cfg.excel_file ∉ fs.existing := by simpa using hb
      refine ⟨?_, Or.inr ?_⟩ <;>
        simp [AudioFilter.execute, AudioFilter.validate_paths, ha2, hb2]

/-- Witness for C9: with only the spreadsheet existing, `execute` leaves
the state untouched and reports the audio directory as not found. -/
theorem C9_witness :
    (AudioFilter.execute cfg0 waveReader [] [] fsNoAudio).1 = fsNoAudio ∧
    ((AudioFilter.execute cfg0 waveReader [] [] fsNoAudio).2 =
        Except.error ("Audio directory not found: " ++ cfg0.audio_dir) ∨
     (AudioFilter.execute cfg0 waveReader [] [] fsNoAudio).2 =
        Except.error ("Excel file not found: " ++ cfg0.excel_file)) :=
  C9_missing_inputs_abort_unchanged cfg0 waveReader [] [] fsNoAudio
    (Or.inl (by decide))

/-- A configuration whose minimum duration is not a multiple of one
hundredth of a second. -/
def cfg4 : FilterConfig :=
  { audio_dir := "in", excel_file := "sheet.xlsx", output_dir := "out",
    min_duration := 10003/1000, max_duration := 15, target_duration := 12 }

/-- A file probing to 10.004 seconds (10004 frames at 1000 frames per
second), inside the range of `cfg4` before rounding. -/
def fx4 : AudioFile := ⟨"1.wav", WavOpenResult.parsed 10004 1000⟩

/-- The record the pipeline produces for `fx4` under `cfg4`: the stored
duration 10.00 lies below `min_duration = 10.003`. -/
def m4 : AudioMetadata := ⟨"1", "1.wav", 10, "", 0, "in/1.wav", "out/audio/1.wav"⟩

/-- C4 counterexample: under `cfg4` (minimum 10.003 s) the file `fx4`
(probed 10.004 s) passes the range check on the unrounded duration, but
the record stores the duration rounded to two decimals, 10.00, which lies
below the minimum — so the exported manifest contains a record violating
`min_duration ≤ duration_sec`. -/
theorem C4_counterexample :
    (DatasetExporter.export cfg4.output_dir cfg4.target_duration fs0
        (AudioFilter.filter_and_copy cfg4 waveReader [] [fx4]).filtered).2 =
      Except.ok ("out/filtered_dataset.csv", [m4]) ∧
    ¬ (cfg4.min_duration ≤ m4.duration_sec) := by
  have hread : (waveReader fx4).1 = some ((10004 : ℚ)/1000) := by
    simp only [waveReader, fx4, WaveAudioReader.get_duration]
    norm_num
  have hwithin :
      AudioFilter.is_within_duration_range cfg4 ((10004 : ℚ)/1000) = true := by
    simp only [AudioFilter.is_within_duration_range, cfg4, decide_eq_true_eq]
    norm_num
  have hround : round2 ((10004 : ℚ)/1000) = 10 := by
    unfold round2
    rw [show ((10004 : ℚ)/1000) * 100 = 10004/10 by norm_num]
    unfold roundHalfEven
    rw [show ⌊(10004/10 : ℚ)⌋ = 1000 by norm_num]
    rw [if_pos (by norm_num)]
    norm_num
  have hstem : stem "1.wav" = "1" := by decide
  have hproc : (AudioFilter.process_audio_file cfg4 fx4 ((10004 : ℚ)/1000) []).1
      = m4 := by
    simp [AudioFilter.process_audio_file, cfg4, fx4, m4, dictGet, hround, hstem]
  have hfc : (AudioFilter.filter_and_copy cfg4 waveReader [] [fx4]).filtered
      = [m4] := by
    simp [AudioFilter.filter_and_copy, hread, hwithin, hproc]
  constructor
  · rw [hfc]
    simp [DatasetExporter.export, List.insertionSort, List.orderedInsert, cfg4]
  · simp only [cfg4, m4]
    norm_num

/-- C4 (amended): whenever `min_duration` and `max_duration` are exact
multiples of 0.01 seconds — as the defaults 10.0 and 15.0 are — every
record of the exported manifest satisfies
`min_duration ≤ duration_sec ≤ max_duration` for the stored rounded
duration, because rounding to hundredths is monotone and fixes such
bounds; for other bounds the stored value can leave the range by up to
half a hundredth (see the counterexample). -/
theorem C4_amended_range_invariant (cfg : FilterConfig)
    (reader : AudioFile → Option ℚ × List LogEvent)
    (ts : List (String × String)) (files : List AudioFile)
    (output_dir : String) (fs fs2 : FS) (p : String)
    (rows : List AudioMetadata) (m : AudioMetadata)
    (hmin : ∃ z : ℤ, cfg.min_duration * 100 = (z : ℚ))
    (hmax : ∃ z : ℤ, cfg.max_duration * 100 = (z : ℚ))
    (hexp : DatasetExporter.export output_dir cfg.target_duration fs
        (AudioFilter.filter_and_copy cfg reader ts files).filtered =
      (fs2, Except.ok (p, rows)))
    (hm : m ∈ rows) :
    cfg.min_duration ≤ m.duration_sec ∧ m.duration_sec ≤ cfg.max_duration := by
  obtain ⟨zmin, hzmin⟩ := hmin
  obtain ⟨zmax, hzmax⟩ := hmax
  rw [export_rows_eq hexp, List.mem_insertionSort] at hm
  obtain ⟨d, ⟨hd1, hd2⟩, hdur⟩ := mem_filtered_duration hm
  rw [hdur]
  constructor
  · calc cfg.min_duration = round2 cfg.min_duration :=
          (round2_eq_self zmin hzmin).symm
      _ ≤ round2 d := round2_mono hd1
  · calc round2 d ≤ round2 cfg.max_duration := round2_mono hd2
      _ = cfg.max_duration := round2_eq_self zmax hzmax

/-- Witness for the amended C4: under the default configuration the record
produced for a 12-second file sits within the exported range bounds. -/
theorem C4_witness :
    cfg0.min_duration ≤ m7.duration_sec ∧
      m7.duration_sec ≤ cfg0.max_duration := by
  have hread : (waveReader fx7).1 = some (12 : ℚ) := by
    simp only [waveReader, fx7, WaveAudioReader.get_duration]
    norm_num
  have hwithin : AudioFilter.is_within_duration_range cfg0 (12 : ℚ) = true := by
    simp only [AudioFilter.is_within_duration_range, cfg0, decide_eq_true_eq]
    norm_num
  have hround : round2 (12 : ℚ) = 12 := round2_eq_self 1200 (by norm_num)
  have hstem : stem "7.wav" = "7" := by decide
  have hproc : (AudioFilter.process_audio_file cfg0 fx7 (12 : ℚ) []).1 = m7 := by
    simp [AudioFilter.process_audio_file, cfg0, fx7, m7, dictGet, hround, hstem]
  have hfc : (AudioFilter.filter_and_copy cfg0 waveReader [] [fx7]).filtered
      = [m7] := by
    simp [AudioFilter.filter_and_copy, hread, hwithin, hproc]
  have hexp : DatasetExporter.export "out" cfg0.target_duration fs0
      (AudioFilter.filter_and_copy cfg0 waveReader [] [fx7]).filtered =
      ({ fs0 with manifests := [("out/filtered_dataset.csv", [m7])] },
       Except.ok ("out/filtered_dataset.csv", [m7])) := by
    rw [hfc]
    simp only [DatasetExporter.export, List.insertionSort, List.orderedInsert,
      fs0]
    rfl
  exact C4_amended_range_invariant cfg0 waveReader [] [fx7] "out" fs0
    { fs0 with manifests := [("out/filtered_dataset.csv", [m7])] }
    "out/filtered_dataset.csv" [m7] m7
    ⟨1000, by norm_num [cfg0]⟩ ⟨1500, by norm_num [cfg0]⟩ hexp (by simp)

/-- A record with an empty transcription. -/
def ex6a : AudioMetadata := ⟨"1", "1.wav", 12, "", 0, "in/1.wav", "out/audio/1.wav"⟩

/-- A record with a three-character transcription. -/
def ex6b : AudioMetadata := ⟨"2", "2.wav", 13, "abc", 3, "in/2.wav", "out/audio/2.wav"⟩

/-- C6 evaluation at the failing input: on two records with transcriptions
`""` and `"abc"`, the coverage the code logs is 2 (the `notna` test counts
the empty string, since every value in the column is a Python `str`) while
the records with non-empty transcription number 1; and the mean text
length the code logs is 3/2 (a mean over all rows) while the mean over the
records with non-empty transcription is 3.  This contradicts the claim and
the evident intent of the statistics (a coverage count that is always
100 % and a guard `with_transcription > 0` that can never fail on a
successfully exported frame). -/
theorem C6_notna_coverage_eval :
    (DatasetExporter.log_statistics [ex6a, ex6b]).with_transcription = 2 ∧
    ([ex6a, ex6b].filter (fun m => decide (m.transcription ≠ ""))).length = 1 ∧
    (DatasetExporter.log_statistics [ex6a, ex6b]).avg_text_length =
      some (3/2) ∧
    ((([ex6a, ex6b].filter (fun m => decide (m.transcription ≠ ""))).map
          (fun m => (m.text_length : ℚ))).sum /
        ((([ex6a, ex6b].filter
            (fun m => decide (m.transcription ≠ ""))).length : ℚ))) = 3 := by
  refine ⟨?_, ?_, ?_, ?_⟩ <;>
    simp [DatasetExporter.log_statistics, notna_string, ex6a, ex6b]

/-- C7: a retained file (successful probe, in-range duration) whose
stem-derived identifier has no catalog entry yields a record with empty
transcription and text length 0, a logged warning, and the record is still
included in the selection output — and in the rows of any successful
export of that output. -/
theorem C7_missing_transcription_included (cfg : FilterConfig)
    (reader : AudioFile → Option ℚ × List LogEvent)
    (ts : List (String × String)) (files : List AudioFile)
    (f : AudioFile) (d : ℚ)
    (hf : f ∈ files) (hd : (reader f).1 = some d)
    (hr : AudioFilter.is_within_duration_range cfg d = true)
    (hmiss : dictGet ts (stem f.name) = none) :
    (AudioFilter.process_audio_file cfg f d ts).1.transcription = "" ∧
    (AudioFilter.process_audio_file cfg f d ts).1.text_length = 0 ∧
    (AudioFilter.process_audio_file cfg f d ts).1 ∈
      (AudioFilter.filter_and_copy cfg reader ts files).filtered ∧
    LogEvent.warning ("Missing transcription for " ++ f.name) ∈
      (AudioFilter.filter_and_copy cfg reader ts files).log ∧
    (∀ (output_dir : String) (fs fs2 : FS) (p : String)
        (rows : List AudioMetadata),
        DatasetExporter.export output_dir cfg.target_duration fs
            (AudioFilter.filter_and_copy cfg reader ts files).filtered =
          (fs2, Except.ok (p, rows)) →
        (AudioFilter.process_audio_file cfg f d ts).1 ∈ rows) := by
  have htr : (AudioFilter.process_audio_file cfg f d ts).1.transcription = "" := by
    simp [AudioFilter.process_audio_file, hmiss]
  have hlen : (AudioFilter.process_audio_file cfg f d ts).1.text_length = 0 := by
    simp [AudioFilter.process_audio_file, hmiss]
  have hmemf : (AudioFilter.process_audio_file cfg f d ts).1 ∈
      (AudioFilter.filter_and_copy cfg reader ts files).filtered := by
    rw [filtered_eq]
    exact List.mem_filterMap.mpr ⟨f, hf, by simp [hd, hr]⟩
  have hwarn : LogEvent.warning ("Missing transcription for " ++ f.name) ∈
      (AudioFilter.process_audio_file cfg f d ts).2.1 := by
    simp [AudioFilter.process_audio_file, hmiss]
  refine ⟨htr, hlen, hmemf,
    mem_log_of_process cfg reader ts files f d _ hf hd hr hwarn, ?_⟩
  intro output_dir fs fs2 p rows hexp
  rw [export_rows_eq hexp, List.mem_insertionSort]
  exact hmemf

/-- Witness for C7: the 12-second file `7.wav` with an empty catalog. -/
theorem C7_witness :
    (AudioFilter.process_audio_file cfg0 fx7 12 []).1.transcription = "" ∧
    (AudioFilter.process_audio_file cfg0 fx7 12 []).1.text_length = 0 ∧
    (AudioFilter.process_audio_file cfg0 fx7 12 []).1 ∈
      (AudioFilter.filter_and_copy cfg0 waveReader [] [fx7]).filtered ∧
    LogEvent.warning ("Missing transcription for " ++ fx7.name) ∈
      (AudioFilter.filter_and_copy cfg0 waveReader [] [fx7]).log ∧
    (∀ (output_dir : String) (fs fs2 : FS) (p : String)
        (rows : List AudioMetadata),
        DatasetExporter.export output_dir cfg0.target_duration fs
            (AudioFilter.filter_and_copy cfg0 waveReader [] [fx7]).filtered =
          (fs2, Except.ok (p, rows)) →
        (AudioFilter.process_audio_file cfg0 fx7 12 []).1 ∈ rows) :=
  C7_missing_transcription_included cfg0 waveReader [] [fx7] fx7 12
    (by simp)
    (by simp only [waveReader, fx7, WaveAudioReader.get_duration]; norm_num)
    (by simp only [AudioFilter.is_within_duration_range, cfg0,
          decide_eq_true_eq]; norm_num)
    rfl

/-- The filesystem state after validation and directory setup under `cfg0`
starting from `fsBoth`. -/
def fs1c : FS := ⟨["in", "sheet.xlsx"], ["out", "out/audio"], [], []⟩

/-- An empty selection result. -/
def outEmpty : FilterOutput := ⟨[], [], []⟩

/-- C10: when the selection stage retains zero files, the exporter fails
with the `KeyError` raised by the `duration_sec` column access on the
column-less empty frame (performed while building the distance column)
instead of writing an empty manifest; the whole run therefore terminates
as a failure with exit code 1, and no manifest is recorded. -/
theorem C10_empty_selection_is_failure (cfg : FilterConfig)
    (rows : List SheetRow) (files : List AudioFile) (fs fs1 : FS)
    (out : FilterOutput)
    (hexec : AudioFilter.execute cfg waveReader rows files fs =
      (fs1, Except.ok out))
    (hempty : out.filtered = []) :
    DatasetExporter.export cfg.output_dir cfg.target_duration fs1
        out.filtered = (fs1, Except.error "KeyError: duration_sec") ∧
    (pipeline_main cfg rows files fs).2 =
      Except.error "KeyError: duration_sec" ∧
    (pipeline_main cfg rows files fs).1.manifests = fs1.manifests ∧
    run_exit_code cfg rows files fs = 1 := by
  have hexp : DatasetExporter.export cfg.output_dir cfg.target_duration fs1
      out.filtered = (fs1, Except.error "KeyError: duration_sec") := by
    rw [hempty]
    rfl
  have hmain : pipeline_main cfg rows files fs =
      (fs1, Except.error "KeyError: duration_sec") := by
    simp only [pipeline_main, hexec, hexp]
  refine ⟨hexp, ?_, ?_, ?_⟩
  · rw [hmain]
  · rw [hmain]
  · simp only [run_exit_code, hmain]

/-- Witness for C10: with both inputs present and a single 5-second file
(outside the default range), the selection retains nothing and the run
fails with no manifest recorded. -/
theorem C10_witness :
    DatasetExporter.export cfg0.output_dir cfg0.target_duration fs1c
        outEmpty.filtered = (fs1c, Except.error "KeyError: duration_sec") ∧
    (pipeline_main cfg0 [] [f5] fsBoth).2 =
      Except.error "KeyError: duration_sec" ∧
    (pipeline_main cfg0 [] [f5] fsBoth).1.manifests = fs1c.manifests ∧
    run_exit_code cfg0 [] [f5] fsBoth = 1 := by
  have hread : (waveReader f5).1 = some (5 : ℚ) := by
    simp only [waveReader, f5, WaveAudioReader.get_duration]
    norm_num
  have hwithin : AudioFilter.is_within_duration_range cfg0 (5 : ℚ) = false := by
    simp only [AudioFilter.is_within_duration_range, cfg0]
    norm_num
  have hlog : (waveReader f5).2 = [] := by
    simp [waveReader, f5, WaveAudioReader.get_duration]
  have hout : AudioFilter.filter_and_copy cfg0 waveReader [] [f5] =
      outEmpty := by
    simp only [AudioFilter.filter_and_copy, hread, hwithin]
    simp [hlog, outEmpty]
  have hexec : AudioFilter.execute cfg0 waveReader [] [f5] fsBoth =
      (fs1c, Except.ok outEmpty) := by
    have hv : AudioFilter.validate_paths cfg0 fsBoth = Except.ok () := rfl
    simp only [AudioFilter.execute, hv, TranscriptionLoader.load,
      List.map_nil, hout]
    simp [AudioFilter.setup_output_directories, fsBoth, fs1c, outEmpty, cfg0]
  exact C10_empty_selection_is_failure cfg0 [] [f5] fsBoth fs1c outEmpty
    hexec rfl

end FilterDysarthric
